import Mathlib

/-!
Verification of the MCP chatbot client (src/app.py) against its
natural-language specification.  The Python source is shallowly embedded:
JSON values are an inductive type, the network is modelled by an explicit
transport outcome handed to each operation, Python dict/list primitives
(`in`, `[...]`, `.get`) are modelled by total Lean functions returning
`Except` (the error string is the `str()` of the Python exception that the
corresponding operation would raise), and the Streamlit handlers become
pure state-transition functions over the session state.
-/

/-- JSON values as produced by `response.json()` (i.e. `json.loads`).
`obj` models a Python dict whose keys, coming from `json.loads`, are
distinct. -/
inductive Json where
  | null : Json
  | bool (b : Bool) : Json
  | num (n : Int) : Json
  | str (s : String) : Json
  | arr (xs : List Json) : Json
  | obj (fields : List (String × Json)) : Json

/-- Dict lookup: value of key `k`, if present. -/
def pyLookup (fs : List (String × Json)) (k : String) : Option Json :=
  match fs with
  | [] => none
  | (k', v) :: rest => if k' == k then some v else pyLookup rest k

/-- Python `k in data`.  On a dict this is key membership, on a list element
membership, on a string substring containment (for non-empty `k`, the only
case the program exercises); on scalars it raises `TypeError`, whose
`str()` is returned in the `error` case. -/
def pyContains (j : Json) (k : String) : Except String Bool :=
  match j with
  | .obj fs => .ok (fs.any (fun p => p.1 == k))
  | .arr xs => .ok (xs.any (fun x => match x with | .str s => s == k | _ => false))
  | .str s => .ok (decide (1 < (s.splitOn k).length))
  | .num _ => .error "argument of type 'int' is not iterable"
  | .bool _ => .error "argument of type 'bool' is not iterable"
  | .null => .error "argument of type 'NoneType' is not iterable"

/-- Python `j.get(k)` (used with an explicit default by the callers).
Raises `AttributeError` when `j` is not a dict. -/
def pyGet (j : Json) (k : String) : Except String (Option Json) :=
  match j with
  | .obj fs => .ok (pyLookup fs k)
  | .str _ => .error "'str' object has no attribute 'get'"
  | .num _ => .error "'int' object has no attribute 'get'"
  | .bool _ => .error "'bool' object has no attribute 'get'"
  | .null => .error "'NoneType' object has no attribute 'get'"
  | .arr _ => .error "'list' object has no attribute 'get'"

/-- Python `j[k]` for a string key.  `KeyError`'s `str()` is the quoted
key. -/
def pySubscript (j : Json) (k : String) : Except String Json :=
  match j with
  | .obj fs =>
    match pyLookup fs k with
    | some v => .ok v
    | none => .error ("'" ++ k ++ "'")
  | .str _ => .error "string indices must be integers"
  | .arr _ => .error "list indices must be integers or slices, not str"
  | .num _ => .error "'int' object is not subscriptable"
  | .bool _ => .error "'bool' object is not subscriptable"
  | .null => .error "'NoneType' object is not subscriptable"

/-- Python `j[i]` for a non-negative integer index. -/
def pyIndex (j : Json) (i : Nat) : Except String Json :=
  match j with
  | .arr xs =>
    match xs.get? i with
    | some v => .ok v
    | none => .error "list index out of range"
  | .str s =>
    match s.toList.get? i with
    | some c => .ok (.str (String.singleton c))
    | none => .error "string index out of range"
  | .obj _ => .error (toString i)
  | .num _ => .error "'int' object is not subscriptable"
  | .bool _ => .error "'bool' object is not subscriptable"
  | .null => .error "'NoneType' object is not subscriptable"

mutual
/-- Python `repr` of a value obtained from `json.loads`. -/
def pyRepr : Json → String
  | .null => "None"
  | .bool true => "True"
  | .bool false => "False"
  | .num n => toString n
  | .str s => "'" ++ s ++ "'"
  | .arr xs => "[" ++ String.intercalate ", " (pyReprList xs) ++ "]"
  | .obj fs => "\x7b" ++ String.intercalate ", " (pyReprFields fs) ++ "\x7d"

def pyReprList : List Json → List String
  | [] => []
  | x :: xs => pyRepr x :: pyReprList xs

def pyReprFields : List (String × Json) → List String
  | [] => []
  | (k, v) :: fs => ("'" ++ k ++ "': " ++ pyRepr v) :: pyReprFields fs
end

/-- Python `str` of a value, as used by f-string interpolation and by
`str(Exception(x))`: strings are unquoted, containers use `repr`. -/
def pyStrTop : Json → String
  | .str s => s
  | j => pyRepr j

/-- JSON string escaping for `json.dumps` (covers the characters the
program's payloads contain). -/
def jsonEscapeChar (c : Char) : String :=
  if c = '"' then "\\\""
  else if c = '\\' then "\\\\"
  else if c = '\n' then "\\n"
  else if c = '\t' then "\\t"
  else if c = '\r' then "\\r"
  else String.singleton c

def jsonEscape (s : String) : String :=
  String.join (s.toList.map jsonEscapeChar)

mutual
/-- `json.dumps(j)` with default separators. -/
def dumps : Json → String
  | .null => "null"
  | .bool true => "true"
  | .bool false => "false"
  | .num n => toString n
  | .str s => "\"" ++ jsonEscape s ++ "\""
  | .arr xs => "[" ++ String.intercalate ", " (dumpsList xs) ++ "]"
  | .obj fs => "\x7b" ++ String.intercalate ", " (dumpsFields fs) ++ "\x7d"

def dumpsList : List Json → List String
  | [] => []
  | x :: xs => dumps x :: dumpsList xs

def dumpsFields : List (String × Json) → List String
  | [] => []
  | (k, v) :: fs => ("\"" ++ jsonEscape k ++ "\": " ++ dumps v) :: dumpsFields fs
end

def indentPad (lvl : Nat) : String :=
  String.mk (List.replicate (2 * lvl) ' ')

mutual
/-- `json.dumps(j, indent=2)`, at nesting level `lvl`. -/
def dumpsInd (lvl : Nat) : Json → String
  | .null => "null"
  | .bool true => "true"
  | .bool false => "false"
  | .num n => toString n
  | .str s => "\"" ++ jsonEscape s ++ "\""
  | .arr [] => "[]"
  | .arr (x :: xs) =>
    "[\n" ++ String.intercalate ",\n" (dumpsIndList (lvl + 1) (x :: xs)) ++
      "\n" ++ indentPad lvl ++ "]"
  | .obj [] => "\x7b\x7d"
  | .obj (f :: fs) =>
    "\x7b\n" ++ String.intercalate ",\n" (dumpsIndFields (lvl + 1) (f :: fs)) ++
      "\n" ++ indentPad lvl ++ "\x7d"

def dumpsIndList (lvl : Nat) : List Json → List String
  | [] => []
  | x :: xs => (indentPad lvl ++ dumpsInd lvl x) :: dumpsIndList lvl xs

def dumpsIndFields (lvl : Nat) : List (String × Json) → List String
  | [] => []
  | (k, v) :: fs =>
    (indentPad lvl ++ "\"" ++ jsonEscape k ++ "\": " ++ dumpsInd lvl v) ::
      dumpsIndFields lvl fs
end

/-- One entry of `st.session_state.debug_logs`, as appended by
`add_debug_log` (time, log type, message). -/
structure DebugEntry where
  time : String
  type : String
  message : String
  deriving DecidableEq

/-- The `tools/call` request body built by `call_mcp_tool`. -/
structure RequestBody where
  jsonrpc : String
  id : Int
  method : String
  params_name : String
  params_arguments : Json

def RequestBody.toJson (r : RequestBody) : Json :=
  Json.obj [("jsonrpc", .str r.jsonrpc), ("id", .num r.id),
            ("method", .str r.method),
            ("params", .obj [("name", .str r.params_name),
                             ("arguments", r.params_arguments)])]

/-- The request body of `call_mcp_tool` (`id = int(time.time() * 1000)`). -/
def mk_tool_request (nowMs : Int) (tool_name : String) (arguments : Json) :
    RequestBody :=
  { jsonrpc := "2.0", id := nowMs, method := "tools/call",
    params_name := tool_name, params_arguments := arguments }

/-- The `initialize` request body built by `test_connection`. -/
def initialize_request : Json :=
  Json.obj [("jsonrpc", .str "2.0"), ("id", .num 1),
            ("method", .str "initialize"), ("params", .obj [])]

/-- Outcome of the single `requests.post` a call performs.  `timeout`,
`connectionError` and `otherFailure` carry `str(e)` of the raised
exception; `response` carries the HTTP status code, the body text, and the
result of `response.json()` (`error` = `str()` of the `JSONDecodeError`
when the body is not JSON). -/
inductive TransportOutcome where
  | timeout (excMessage : String)
  | connectionError (excMessage : String)
  | otherFailure (excMessage : String)
  | response (statusCode : Nat) (text : String) (parsed : Except String Json)

/-- Lines 126-131 and the final `except Exception` of `call_mcp_tool`:
inspect the parsed body; a JSON-RPC `error` object or any other raised
exception is re-raised as `Exception(f"Error: ...")` because the
`raise` at line 129 sits inside the same `try` block. -/
def cmt_handle_body (parsed : Except String Json) : Except String Json :=
  match parsed with
  | .error m => .error ("Error: " ++ m)
  | .ok data =>
    match pyContains data "error" with
    | .error m => .error ("Error: " ++ m)
    | .ok true =>
      match pySubscript data "error" with
      | .error m => .error ("Error: " ++ m)
      | .ok err =>
        match pyGet err "message" with
        | .error m => .error ("Error: " ++ m)
        | .ok mv =>
          .error ("Error: " ++
            pyStrTop (match mv with
                      | some v => v
                      | none => Json.str (pyStrTop err)))
    | .ok false =>
      match pySubscript data "result" with
      | .error m => .error ("Error: " ++ m)
      | .ok r => .ok r

/-- `call_mcp_tool` (lines 100-138): returns the debug-log entries it
appends and either the `result` value or the `str()` of the exception it
raises.  `t` is the `add_debug_log` timestamp, `nowMs` the value of
`int(time.time() * 1000)`. -/
def call_mcp_tool (_server_url : String) (t : String) (nowMs : Int)
    (tool_name : String) (arguments : Json) (outcome : TransportOutcome) :
    List DebugEntry × Except String Json :=
  let pre : List DebugEntry :=
    [⟨t, "info", "Calling tool: " ++ tool_name⟩,
     ⟨t, "info", "Request: " ++
        dumpsInd 0 (mk_tool_request nowMs tool_name arguments).toJson⟩]
  match outcome with
  | .timeout _ =>
    (pre, .error "Request timed out. The server took too long to respond.")
  | .connectionError _ =>
    (pre, .error "Connection failed. Check your server URL.")
  | .otherFailure m => (pre, .error ("Error: " ++ m))
  | .response code text parsed =>
    (pre ++ [⟨t, "info", "Response status: " ++ toString code⟩,
             ⟨t, "info", "Response: " ++ text⟩],
     cmt_handle_body parsed)

/-- Line 167: `data['result'].get('serverInfo', {}).get('name', 'Unknown')`. -/
def tc_server_name (result : Json) : Except String Json :=
  match pyGet result "serverInfo" with
  | .error m => .error m
  | .ok siOpt =>
    match pyGet (match siOpt with | some si => si | none => Json.obj []) "name" with
    | .error m => .error m
    | .ok nOpt => .ok (match nOpt with | some n => n | none => Json.str "Unknown")

/-- Lines 160-175 of `test_connection` after a response was received:
extra debug-log entries and the returned pair.  A raised exception is
caught by the outer `except`, which logs `Connection failed: ...` and
returns `(False, str(e))`. -/
def tc_handle (t : String) (parsed : Except String Json) :
    List DebugEntry × (Bool × String) :=
  let fail := fun (logs : List DebugEntry) (m : String) =>
    (logs ++ [⟨t, "error", "Connection failed: " ++ m⟩], (false, m))
  match parsed with
  | .error m => fail [] m
  | .ok data =>
    match pyContains data "error" with
    | .error m => fail [] m
    | .ok true =>
      match pySubscript data "error" with
      | .error m => fail [] m
      | .ok err =>
        let logs := [(⟨t, "error", "Server error: " ++ dumps err⟩ : DebugEntry)]
        match pyGet err "message" with
        | .error m => fail logs m
        | .ok mv =>
          (logs, (false, "Server error: " ++
            pyStrTop (match mv with
                      | some v => v
                      | none => Json.str "Unknown error")))
    | .ok false =>
      match pyContains data "result" with
      | .error m => fail [] m
      | .ok true =>
        match pySubscript data "result" with
        | .error m => fail [] m
        | .ok r =>
          match tc_server_name r with
          | .error m => fail [] m
          | .ok nm =>
            ([⟨t, "success",
               "✓ Connection successful! Server: " ++ pyStrTop nm⟩],
             (true, "Connected to " ++ pyStrTop nm))
      | .ok false => ([], (false, "Unexpected response format"))

/-- `test_connection` (lines 140-175): debug-log entries appended and the
returned `(success, message)` pair; it never raises. -/
def test_connection (server_url : String) (t : String)
    (outcome : TransportOutcome) : List DebugEntry × (Bool × String) :=
  let pre : List DebugEntry :=
    [⟨t, "info", "Testing connection to: " ++ server_url⟩]
  match outcome with
  | .timeout m =>
    (pre ++ [⟨t, "error", "Connection failed: " ++ m⟩], (false, m))
  | .connectionError m =>
    (pre ++ [⟨t, "error", "Connection failed: " ++ m⟩], (false, m))
  | .otherFailure m =>
    (pre ++ [⟨t, "error", "Connection failed: " ++ m⟩], (false, m))
  | .response code _text parsed =>
    let logs1 := pre ++ [⟨t, "info", "Response status: " ++ toString code⟩]
    ((logs1 ++ (tc_handle t parsed).1), (tc_handle t parsed).2)

/-- One chat message; user messages are appended without an `is_error`
key (`is_error = none`), the display reads `message.get('is_error', False)`. -/
structure Message where
  role : String
  content : String
  timestamp : String
  is_error : Option Bool
  deriving DecidableEq

/-- The mutable Streamlit session state the handlers touch. -/
structure AppState where
  messages : List Message
  session_id : String
  connection_status : String
  debug_logs : List DebugEntry

/-- Sidebar configuration read each turn. -/
structure Config where
  server_url : String
  provider : String
  model : String
  use_memory : Bool

/-- Result of one run of the chat-input handler: the updated session
state, whether the empty-URL validation error was shown, and the request
body sent over the network (none when validation failed). -/
structure HandleResult where
  state : AppState
  validation_error : Bool
  request_sent : Option RequestBody

/-- Line 333: `response_text = result['content'][0]['text']`. -/
def extract_response_text (result : Json) : Except String Json :=
  match pySubscript result "content" with
  | .error m => .error m
  | .ok c =>
    match pyIndex c 0 with
    | .error m => .error m
    | .ok c0 => pySubscript c0 "text"

/-- The chat-input handler (lines 298-353).  `ts1`/`ts2` are the user /
assistant message timestamps, `lt` the debug-log timestamp, `nowMs` the
request id clock.  The extracted reply (any JSON value) is stored via its
`str()` form, which is how the display interpolates it. -/
def handle_user_input (cfg : Config) (st : AppState) (user_input : String)
    (ts1 ts2 lt : String) (nowMs : Int) (outcome : TransportOutcome) :
    HandleResult :=
  if cfg.server_url = "" then
    { state := st, validation_error := true, request_sent := none }
  else
    let st1 := { st with
      messages := st.messages ++ [(⟨"user", user_input, ts1, none⟩ : Message)] }
    let tool_name :=
      if cfg.use_memory then "conversation_with_memory" else "chat"
    let arguments :=
      if cfg.use_memory then
        Json.obj [("message", .str user_input),
                  ("sessionId", .str st.session_id),
                  ("provider", .str cfg.provider)]
      else
        Json.obj [("message", .str user_input),
                  ("provider", .str cfg.provider),
                  ("model", .str cfg.model)]
    let call := call_mcp_tool cfg.server_url lt nowMs tool_name arguments outcome
    let st2 := { st1 with debug_logs := st1.debug_logs ++ call.1 }
    let res :=
      match call.2 with
      | .ok result =>
        match extract_response_text result with
        | .ok v => Except.ok (pyStrTop v)
        | .error m => Except.error m
      | .error m => Except.error m
    let newMsg : Message :=
      match res with
      | .ok response_text => ⟨"assistant", response_text, ts2, some false⟩
      | .error m =>
        ⟨"assistant",
         "Error: " ++ m ++ "\n\nPlease check your server URL and API keys.",
         ts2, some true⟩
    { state := { st2 with messages := st2.messages ++ [newMsg] },
      validation_error := false,
      request_sent := some (mk_tool_request nowMs tool_name arguments) }

/-- The Test Connection button handler (lines 191-202): runs
`test_connection` and sets `connection_status`; with an empty URL it only
shows a warning. -/
def test_connection_click (server_url : String) (t : String) (st : AppState)
    (outcome : TransportOutcome) : AppState × Option (Bool × String) :=
  if server_url = "" then (st, none)
  else
    let r := test_connection server_url t outcome
    ({ st with debug_logs := st.debug_logs ++ r.1,
               connection_status := if r.2.1 then "connected" else "error" },
     some r.2)

/-- The New Session button handler (lines 249-252): clears messages and
assigns `session-{int(time.time() * 1000)}`. -/
def new_session (nowMs : Int) (st : AppState) : AppState :=
  { st with messages := [], session_id := "session-" ++ toString nowMs }

/-- Initial session state (lines 80-87), `startMs` the start clock. -/
def init_state (startMs : Int) : AppState :=
  { messages := [], session_id := "session-" ++ toString startMs,
    connection_status := "unknown", debug_logs := [] }

/-- Line 364: the debug-log view iterates over
`st.session_state.debug_logs[-20:]`. -/
def displayed_debug_logs (logs : List DebugEntry) : List DebugEntry :=
  logs.drop (logs.length - 20)

/-- If a key is found by `pyLookup`, the membership test succeeds. -/
theorem pyLookup_any_eq_true (k : String) (v : Json) :
    ∀ fs : List (String × Json),
      pyLookup fs k = some v → fs.any (fun p => p.1 == k) = true := by
  intro fs
  induction fs with
  | nil => intro h; simp [pyLookup] at h
  | cons p rest ih =>
    intro h
    by_cases hk : p.1 == k
    · simp [List.any_cons, hk]
    · rw [pyLookup] at h
      simp only [hk] at h
      simp [List.any_cons, hk, ih h]

/-- Claim C1: with a non-empty serverUrl, the tool call sent has method
"tools/call"; when useMemory is true the tool is
`conversation_with_memory` with arguments `{message, sessionId, provider}`,
and when it is false the tool is `chat` with arguments
`{message, provider, model}`, which has no `sessionId` field (the final
`pyContains` conjunct evaluates key membership of "sessionId" to
`cfg.use_memory`). -/
theorem C1_tool_selection (cfg : Config) (st : AppState)
    (input ts1 ts2 lt : String) (nowMs : Int) (oc : TransportOutcome)
    (h : cfg.server_url ≠ "") :
    ∃ req : RequestBody,
      (handle_user_input cfg st input ts1 ts2 lt nowMs oc).request_sent =
        some req ∧
      req.method = "tools/call" ∧
      req.params_name =
        (if cfg.use_memory then "conversation_with_memory" else "chat") ∧
      req.params_arguments =
        (if cfg.use_memory then
          Json.obj [("message", .str input), ("sessionId", .str st.session_id),
                    ("provider", .str cfg.provider)]
         else
          Json.obj [("message", .str input), ("provider", .str cfg.provider),
                    ("model", .str cfg.model)]) ∧
      pyContains req.params_arguments "sessionId" = .ok cfg.use_memory := by
  cases hm : cfg.use_memory <;>
    simp only [handle_user_input, if_neg h, hm, if_true, if_false] <;>
    exact ⟨_, rfl, rfl, rfl, rfl, rfl⟩

/-- Closed instance of C1 (useMemory = true, message "hi"). -/
theorem C1_tool_selection_witness :
    ∃ req : RequestBody,
      (handle_user_input ⟨"http://s", "openai", "gpt-3.5-turbo", true⟩
        ⟨[], "session-1", "unknown", []⟩ "hi" "01:00 PM" "01:01 PM"
        "00:00:00" 5 (.timeout "x")).request_sent = some req ∧
      req.method = "tools/call" ∧
      req.params_name =
        (if (true : Bool) then "conversation_with_memory" else "chat") ∧
      req.params_arguments =
        (if (true : Bool) then
          Json.obj [("message", .str "hi"), ("sessionId", .str "session-1"),
                    ("provider", .str "openai")]
         else
          Json.obj [("message", .str "hi"), ("provider", .str "openai"),
                    ("model", .str "gpt-3.5-turbo")]) ∧
      pyContains req.params_arguments "sessionId" = .ok true :=
  C1_tool_selection ⟨"http://s", "openai", "gpt-3.5-turbo", true⟩
    ⟨[], "session-1", "unknown", []⟩ "hi" "01:00 PM" "01:01 PM"
    "00:00:00" 5 (.timeout "x") (by decide)

/-- Claim C4: a transport timeout during the tool call appends exactly the
user message and one assistant message with `is_error = true` whose
content starts with "Error: Request timed out. The server took too long to
respond.". -/
theorem C4_timeout_single_error_message (cfg : Config) (st : AppState)
    (input ts1 ts2 lt m : String) (nowMs : Int) (h : cfg.server_url ≠ "") :
    (handle_user_input cfg st input ts1 ts2 lt nowMs
        (.timeout m)).state.messages =
      st.messages ++
        [⟨"user", input, ts1, none⟩,
         ⟨"assistant",
          "Error: Request timed out. The server took too long to respond.\n\nPlease check your server URL and API keys.",
          ts2, some true⟩] ∧
    "Error: Request timed out. The server took too long to respond.\n\nPlease check your server URL and API keys." =
      "Error: Request timed out. The server took too long to respond." ++
        "\n\nPlease check your server URL and API keys." := by
  refine ⟨?_, rfl⟩
  cases hm : cfg.use_memory <;>
    simp [handle_user_input, if_neg h, hm, call_mcp_tool]

/-- Closed instance of C4. -/
theorem C4_timeout_single_error_message_witness :
    (handle_user_input ⟨"http://s", "openai", "gpt-3.5-turbo", false⟩
        ⟨[], "session-1", "unknown", []⟩ "hi" "01:00 PM" "01:01 PM"
        "00:00:00" 5 (.timeout "x")).state.messages =
      [] ++
        [⟨"user", "hi", "01:00 PM", none⟩,
         ⟨"assistant",
          "Error: Request timed out. The server took too long to respond.\n\nPlease check your server URL and API keys.",
          "01:01 PM", some true⟩] ∧
    "Error: Request timed out. The server took too long to respond.\n\nPlease check your server URL and API keys." =
      "Error: Request timed out. The server took too long to respond." ++
        "\n\nPlease check your server URL and API keys." :=
  C4_timeout_single_error_message ⟨"http://s", "openai", "gpt-3.5-turbo", false⟩
    ⟨[], "session-1", "unknown", []⟩ "hi" "01:00 PM" "01:01 PM"
    "00:00:00" "x" 5 (by decide)

/-- Claim C5: input submitted with an empty serverUrl leaves the whole
session state untouched (zero messages appended), shows the validation
warning, and sends no request. -/
theorem C5_empty_url_no_message (cfg : Config) (st : AppState)
    (input ts1 ts2 lt : String) (nowMs : Int) (oc : TransportOutcome)
    (h : cfg.server_url = "") :
    (handle_user_input cfg st input ts1 ts2 lt nowMs oc).state = st ∧
    (handle_user_input cfg st input ts1 ts2 lt nowMs oc).validation_error =
      true ∧
    (handle_user_input cfg st input ts1 ts2 lt nowMs oc).request_sent =
      none := by
  simp [handle_user_input, h]

/-- Closed instance of C5. -/
theorem C5_empty_url_no_message_witness :
    (handle_user_input ⟨"", "openai", "gpt-3.5-turbo", true⟩
        ⟨[], "session-1", "unknown", []⟩ "hi" "01:00 PM" "01:01 PM"
        "00:00:00" 5 (.timeout "x")).state =
      (⟨[], "session-1", "unknown", []⟩ : AppState) ∧
    (handle_user_input ⟨"", "openai", "gpt-3.5-turbo", true⟩
        ⟨[], "session-1", "unknown", []⟩ "hi" "01:00 PM" "01:01 PM"
        "00:00:00" 5 (.timeout "x")).validation_error = true ∧
    (handle_user_input ⟨"", "openai", "gpt-3.5-turbo", true⟩
        ⟨[], "session-1", "unknown", []⟩ "hi" "01:00 PM" "01:01 PM"
        "00:00:00" 5 (.timeout "x")).request_sent = none :=
  C5_empty_url_no_message ⟨"", "openai", "gpt-3.5-turbo", true⟩
    ⟨[], "session-1", "unknown", []⟩ "hi" "01:00 PM" "01:01 PM"
    "00:00:00" 5 (.timeout "x") (by decide)

/-- A prior state for refuting C6: its session id was generated at
millisecond 1000. -/
def c6_state : AppState :=
  { messages := [⟨"user", "hi", "01:00 PM", none⟩],
    session_id := "session-1000", connection_status := "unknown",
    debug_logs := [] }

/-- Claim C6 is refuted: invoking New Session during the same clock
millisecond (1000) that produced the previous session id yields the very
same id, so the new id does not always differ from the previous one. -/
theorem C6_counterexample :
    (new_session 1000 c6_state).session_id = "session-1000" ∧
    c6_state.session_id = "session-1000" := by
  exact ⟨rfl, rfl⟩

/-- Claim C6 amended: New Session always empties the message log and sets
the session id to `session-<nowMs>`; the new id differs from the previous
one provided the previous id is not the string `session-<nowMs>` built
from the reset instant (in particular, whenever the clock millisecond has
advanced since the previous id was generated). -/
theorem C6_new_session_amended (nowMs : Int) (st : AppState)
    (h : st.session_id ≠ "session-" ++ toString nowMs) :
    (new_session nowMs st).messages = [] ∧
    (new_session nowMs st).session_id ≠ st.session_id :=
  ⟨rfl, fun e => h e.symm⟩

/-- Closed instance of the amended C6. -/
theorem C6_new_session_amended_witness :
    (new_session 2000 c6_state).messages = [] ∧
    (new_session 2000 c6_state).session_id ≠ c6_state.session_id :=
  C6_new_session_amended 2000 c6_state (by decide)

/-- Claim C8: the debug-log view (`debug_logs[-20:]`) is always a suffix
of the append-ordered log whose length is `min 20` the log's length — at
most the 20 most recent entries, in append order. -/
theorem C8_debug_view_bounded (logs : List DebugEntry) :
    displayed_debug_logs logs <:+ logs ∧
    (displayed_debug_logs logs).length = min 20 logs.length := by
  constructor
  · exact ⟨logs.take (logs.length - 20), List.take_append_drop _ logs⟩
  · simp only [displayed_debug_logs, List.length_drop]
    omega

/-- A response body that contains both an `error` and a `result` field. -/
def c2_both_data : Json :=
  Json.obj [("error", Json.obj [("message", Json.str "x")]),
            ("result", Json.obj [("serverInfo", Json.obj [("name", Json.str "Fuse")])])]

/-- A response body that contains only a `result` field. -/
def c2_result_data : Json :=
  Json.obj [("result", Json.obj [("serverInfo", Json.obj [("name", Json.str "Fuse")])])]

/-- Claim C2 is refuted twice over: (a) a response that contains `result`
but also `error` returns `(false, ...)` because the error branch runs
first, and (b) even on a plain `result` response the second component is
"Connected to Fuse", not the bare name "Fuse". -/
theorem C2_counterexample :
    (test_connection "http://s" "00:00:00"
        (.response 200 "body" (.ok c2_both_data))).2 =
      (false, "Server error: x") ∧
    (test_connection "http://s" "00:00:00"
        (.response 200 "body" (.ok c2_result_data))).2 =
      (true, "Connected to Fuse") ∧
    ("Connected to Fuse" : String) ≠ "Fuse" := by
  exact ⟨rfl, rfl, by decide⟩

/-- Claim C2 amended: for every parsed response object that contains a
`result` field and no `error` field, and whose `result` admits the
`serverInfo`/`name` extraction (`tc_server_name`, the embedding of
`data['result'].get('serverInfo', {}).get('name', 'Unknown')`),
`test_connection` returns `(true, "Connected to " ++ str(name))`, the name
defaulting to "Unknown" when absent. -/
theorem C2_initialize_result_amended (url t txt : String) (c : Nat)
    (fs : List (String × Json)) (r nm : Json)
    (hne : fs.any (fun p => p.1 == "error") = false)
    (hr : pyLookup fs "result" = some r)
    (hnm : tc_server_name r = Except.ok nm) :
    (test_connection url t (.response c txt (.ok (Json.obj fs)))).2 =
      (true, "Connected to " ++ pyStrTop nm) := by
  have hmem := pyLookup_any_eq_true "result" r fs hr
  simp [test_connection, tc_handle, pyContains, pySubscript, hne, hr, hmem, hnm]

/-- Closed instance of the amended C2: the spec's Fuse example. -/
theorem C2_initialize_result_amended_witness :
    (test_connection "http://s" "00:00:00"
        (.response 200 "body" (.ok c2_result_data))).2 =
      (true, "Connected to " ++ pyStrTop (Json.str "Fuse")) :=
  C2_initialize_result_amended "http://s" "00:00:00" "body" 200
    [("result", Json.obj [("serverInfo", Json.obj [("name", Json.str "Fuse")])])]
    (Json.obj [("serverInfo", Json.obj [("name", Json.str "Fuse")])])
    (Json.str "Fuse") rfl rfl rfl

/-- A JSON-RPC error response whose error object carries message "boom". -/
def c3_outcome : TransportOutcome :=
  .response 200 "raw"
    (.ok (Json.obj [("error", Json.obj [("message", Json.str "boom")])]))

/-- Claim C3 is refuted: on a server error response with message "boom"
the appended assistant message reads "Error: Error: boom..." — the
`raise` inside `call_mcp_tool`'s `try` block is re-caught by its own
generic `except Exception` handler and wrapped a second time, so the
"Error: " prefix appears twice, not once. -/
theorem C3_counterexample :
    ((handle_user_input ⟨"http://s", "openai", "gpt-3.5-turbo", true⟩
        ⟨[], "session-1", "unknown", []⟩ "hi" "01:00 PM" "01:01 PM"
        "00:00:00" 5 c3_outcome).state.messages.map
          (fun m => (m.role, m.content, m.is_error))) =
      [("user", "hi", none),
       ("assistant",
        "Error: Error: boom\n\nPlease check your server URL and API keys.",
        some true)] ∧
    ("Error: Error: boom\n\nPlease check your server URL and API keys." : String) ≠
      "Error: boom\n\nPlease check your server URL and API keys." := by
  exact ⟨rfl, by decide⟩

/-- Claim C3 amended: on a response whose `error` object carries a string
message `m`, `call_mcp_tool` fails with message "Error: " ++ m; on a
response whose `error` object `es` has no `message` field, it fails with
"Error: " ++ the stringified error object (`pyStrTop (Json.obj es)`) —
in both cases the internal raise is re-wrapped by the function's own
generic handler.  The orchestrator then appends one assistant message
with `is_error = true` whose content is "Error: " ++ ("Error: " ++ that
message) ++ "\n\nPlease check your server URL and API keys." — the
"Error: " prefix appears twice. -/
theorem C3_server_error_amended (cfg : Config) (st : AppState)
    (input ts1 ts2 lt m : String) (nowMs : Int) (c : Nat) (txt : String)
    (es : List (String × Json))
    (h : cfg.server_url ≠ "")
    (hnomsg : pyLookup es "message" = none) :
    (∀ (u t : String) (k : Int) (tool : String) (args : Json),
      (call_mcp_tool u t k tool args
          (.response c txt
            (.ok (Json.obj [("error", Json.obj [("message", Json.str m)])])))).2 =
        Except.error ("Error: " ++ m)) ∧
    (∀ (u t : String) (k : Int) (tool : String) (args : Json),
      (call_mcp_tool u t k tool args
          (.response c txt (.ok (Json.obj [("error", Json.obj es)])))).2 =
        Except.error ("Error: " ++ pyStrTop (Json.obj es))) ∧
    (handle_user_input cfg st input ts1 ts2 lt nowMs
        (.response c txt
          (.ok (Json.obj [("error", Json.obj [("message", Json.str m)])])))).state.messages =
      st.messages ++
        [⟨"user", input, ts1, none⟩,
         ⟨"assistant",
          "Error: " ++ ("Error: " ++ m) ++
            "\n\nPlease check your server URL and API keys.",
          ts2, some true⟩] ∧
    (handle_user_input cfg st input ts1 ts2 lt nowMs
        (.response c txt
          (.ok (Json.obj [("error", Json.obj es)])))).state.messages =
      st.messages ++
        [⟨"user", input, ts1, none⟩,
         ⟨"assistant",
          "Error: " ++ ("Error: " ++ pyStrTop (Json.obj es)) ++
            "\n\nPlease check your server URL and API keys.",
          ts2, some true⟩] := by
  refine ⟨?_, ?_, ?_, ?_⟩
  · intro u t k tool args
    simp [call_mcp_tool, cmt_handle_body, pyContains, pySubscript, pyGet,
          pyLookup, pyStrTop]
  · intro u t k tool args
    simp [call_mcp_tool, cmt_handle_body, pyContains, pySubscript, pyGet,
          pyLookup, hnomsg, pyStrTop]
  · cases hm : cfg.use_memory <;>
      simp [handle_user_input, if_neg h, hm, call_mcp_tool, cmt_handle_body,
            pyContains, pySubscript, pyGet, pyLookup, pyStrTop]
  · cases hm : cfg.use_memory <;>
      simp [handle_user_input, if_neg h, hm, call_mcp_tool, cmt_handle_body,
            pyContains, pySubscript, pyGet, pyLookup, hnomsg, pyStrTop]

/-- Closed instance of the amended C3, with message "boom" for the
message-field case and `{"code": 5}` (stringified to "\x7b'code': 5\x7d")
for the no-message-field case. -/
theorem C3_server_error_amended_witness :
    (∀ (u t : String) (k : Int) (tool : String) (args : Json),
      (call_mcp_tool u t k tool args
          (.response 200 "raw"
            (.ok (Json.obj [("error", Json.obj [("message", Json.str "boom")])])))).2 =
        Except.error ("Error: " ++ "boom")) ∧
    (∀ (u t : String) (k : Int) (tool : String) (args : Json),
      (call_mcp_tool u t k tool args
          (.response 200 "raw"
            (.ok (Json.obj [("error", Json.obj [("code", Json.num 5)])])))).2 =
        Except.error ("Error: " ++ pyStrTop (Json.obj [("code", Json.num 5)]))) ∧
    (handle_user_input ⟨"http://s", "openai", "gpt-3.5-turbo", true⟩
        ⟨[], "session-1", "unknown", []⟩ "hi" "01:00 PM" "01:01 PM"
        "00:00:00" 5
        (.response 200 "raw"
          (.ok (Json.obj [("error", Json.obj [("message", Json.str "boom")])])))).state.messages =
      [] ++
        [⟨"user", "hi", "01:00 PM", none⟩,
         ⟨"assistant",
          "Error: " ++ ("Error: " ++ "boom") ++
            "\n\nPlease check your server URL and API keys.",
          "01:01 PM", some true⟩] ∧
    (handle_user_input ⟨"http://s", "openai", "gpt-3.5-turbo", true⟩
        ⟨[], "session-1", "unknown", []⟩ "hi" "01:00 PM" "01:01 PM"
        "00:00:00" 5
        (.response 200 "raw"
          (.ok (Json.obj [("error", Json.obj [("code", Json.num 5)])])))).state.messages =
      [] ++
        [⟨"user", "hi", "01:00 PM", none⟩,
         ⟨"assistant",
          "Error: " ++ ("Error: " ++ pyStrTop (Json.obj [("code", Json.num 5)])) ++
            "\n\nPlease check your server URL and API keys.",
          "01:01 PM", some true⟩] :=
  C3_server_error_amended ⟨"http://s", "openai", "gpt-3.5-turbo", true⟩
    ⟨[], "session-1", "unknown", []⟩ "hi" "01:00 PM" "01:01 PM"
    "00:00:00" "boom" 5 200 "raw" [("code", Json.num 5)] (by decide) rfl

/-- Claim C7: `test_connection` is a total function returning a
(success, message) pair for every outcome: each transport failure yields
`(false, str(e))`, the error envelope `{"error":{"message":"bad key"}}`
yields `(false, "Server error: bad key")`, and an envelope with neither
`error` nor `result` yields `(false, "Unexpected response format")`. -/
theorem C7_test_connection_total (url t m txt : String) (c : Nat) :
    (test_connection url t (.timeout m)).2 = (false, m) ∧
    (test_connection url t (.connectionError m)).2 = (false, m) ∧
    (test_connection url t (.otherFailure m)).2 = (false, m) ∧
    (test_connection url t (.response c txt (.error m))).2 = (false, m) ∧
    (test_connection url t
        (.response c txt
          (.ok (Json.obj [("error", Json.obj [("message", Json.str "bad key")])])))).2 =
      (false, "Server error: bad key") ∧
    (test_connection url t (.response c txt (.ok (Json.obj [])))).2 =
      (false, "Unexpected response format") := by
  exact ⟨rfl, rfl, rfl, rfl, rfl, rfl⟩

/-- Claim C9 is refuted: (a) when the transport times out,
`call_mcp_tool` emits only the two before-send entries — no
status/body entry is recorded for the failed attempt; (b) on a received
response `test_connection` logs the status but never the response body
(the body "rawbody" appears in no entry). -/
theorem C9_counterexample :
    ((call_mcp_tool "http://s" "00:00:00" 5 "chat" (Json.obj [])
        (.timeout "t")).1.map (fun e => e.message)) =
      ["Calling tool: chat",
       "Request: " ++
         dumpsInd 0 (mk_tool_request 5 "chat" (Json.obj [])).toJson] ∧
    ((test_connection "http://s" "00:00:00"
        (.response 200 "rawbody"
          (.ok (Json.obj [("result", Json.obj [])])))).1.map
        (fun e => e.message)) =
      ["Testing connection to: http://s", "Response status: 200",
       "✓ Connection successful! Server: Unknown"] := by
  exact ⟨rfl, rfl⟩

/-- Claim C9 amended: both operations always log before sending
(`call_mcp_tool` the tool name and request dump, `test_connection` the
target URL); status and body entries are recorded only when a response
was actually received — `call_mcp_tool` logs status and body then, while
`test_connection` logs only the status and never the body (its log for a
received response is independent of the body text, the final conjunct);
on every transport failure (timeout, connection error, or any other
fault) `call_mcp_tool` adds nothing after the request logs while
`test_connection` adds one "Connection failed" error entry. -/
theorem C9_logging_amended (u t : String) (nowMs : Int) (tool : String)
    (args : Json) (oc : TransportOutcome) (c : Nat) (txt txt' m : String)
    (p : Except String Json) :
    (call_mcp_tool u t nowMs tool args oc).1.take 2 =
      [⟨t, "info", "Calling tool: " ++ tool⟩,
       ⟨t, "info", "Request: " ++
          dumpsInd 0 (mk_tool_request nowMs tool args).toJson⟩] ∧
    (call_mcp_tool u t nowMs tool args (.response c txt p)).1 =
      [⟨t, "info", "Calling tool: " ++ tool⟩,
       ⟨t, "info", "Request: " ++
          dumpsInd 0 (mk_tool_request nowMs tool args).toJson⟩,
       ⟨t, "info", "Response status: " ++ toString c⟩,
       ⟨t, "info", "Response: " ++ txt⟩] ∧
    (call_mcp_tool u t nowMs tool args (.timeout m)).1 =
      [⟨t, "info", "Calling tool: " ++ tool⟩,
       ⟨t, "info", "Request: " ++
          dumpsInd 0 (mk_tool_request nowMs tool args).toJson⟩] ∧
    (call_mcp_tool u t nowMs tool args (.connectionError m)).1 =
      [⟨t, "info", "Calling tool: " ++ tool⟩,
       ⟨t, "info", "Request: " ++
          dumpsInd 0 (mk_tool_request nowMs tool args).toJson⟩] ∧
    (call_mcp_tool u t nowMs tool args (.otherFailure m)).1 =
      [⟨t, "info", "Calling tool: " ++ tool⟩,
       ⟨t, "info", "Request: " ++
          dumpsInd 0 (mk_tool_request nowMs tool args).toJson⟩] ∧
    (test_connection u t (.timeout m)).1 =
      [⟨t, "info", "Testing connection to: " ++ u⟩,
       ⟨t, "error", "Connection failed: " ++ m⟩] ∧
    (test_connection u t (.connectionError m)).1 =
      [⟨t, "info", "Testing connection to: " ++ u⟩,
       ⟨t, "error", "Connection failed: " ++ m⟩] ∧
    (test_connection u t (.otherFailure m)).1 =
      [⟨t, "info", "Testing connection to: " ++ u⟩,
       ⟨t, "error", "Connection failed: " ++ m⟩] ∧
    (test_connection u t (.response c txt p)).1.take 2 =
      [⟨t, "info", "Testing connection to: " ++ u⟩,
       ⟨t, "info", "Response status: " ++ toString c⟩] ∧
    (test_connection u t (.response c txt p)).1 =
      (test_connection u t (.response c txt' p)).1 := by
  refine ⟨?_, rfl, rfl, rfl, rfl, rfl, rfl, rfl, rfl, rfl⟩
  cases oc <;> rfl

/-- Claim C10 is refuted on its `test_connection` half: the body
`{"result": 5}` contains a `result` field and no `error` field, yet
`test_connection` reports failure (the `.get` chain raises on the
non-dict result) — already at HTTP status 200. -/
theorem C10_counterexample :
    (test_connection "http://s" "00:00:00"
        (.response 200 "b" (.ok (Json.obj [("result", Json.num 5)])))).2 =
      (false, "'int' object has no attribute 'get'") := by
  exact rfl

/-- Claim C10 amended: the HTTP status code is never inspected — the
returned values of both `call_mcp_tool` and `test_connection` are
identical for any two status codes; and for a parsed object with a
`result` field and no `error` field, `call_mcp_tool` returns that result
at every status code, while `test_connection` additionally reports
success whenever the `serverInfo`/`name` extraction on the result
succeeds. -/
theorem C10_status_ignored_amended (u t : String) (nowMs : Int)
    (tool : String) (args : Json) (c c' : Nat) (txt : String)
    (p : Except String Json) (fs : List (String × Json)) (r nm : Json)
    (hne : fs.any (fun x => x.1 == "error") = false)
    (hr : pyLookup fs "result" = some r)
    (hnm : tc_server_name r = Except.ok nm) :
    (call_mcp_tool u t nowMs tool args (.response c txt p)).2 =
      (call_mcp_tool u t nowMs tool args (.response c' txt p)).2 ∧
    (test_connection u t (.response c txt p)).2 =
      (test_connection u t (.response c' txt p)).2 ∧
    (call_mcp_tool u t nowMs tool args (.response c txt (.ok (Json.obj fs)))).2 =
      Except.ok r ∧
    (test_connection u t (.response c txt (.ok (Json.obj fs)))).2.1 = true := by
  have hmem := pyLookup_any_eq_true "result" r fs hr
  refine ⟨rfl, rfl, ?_, ?_⟩
  · simp [call_mcp_tool, cmt_handle_body, pyContains, pySubscript, hne, hr, hmem]
  · simp [test_connection, tc_handle, pyContains, pySubscript, hne, hr, hmem, hnm]

/-- Closed instance of the amended C10 at HTTP status 500. -/
theorem C10_status_ignored_amended_witness :
    (call_mcp_tool "http://s" "00:00:00" 5 "chat" (Json.obj [])
        (.response 500 "b" (.ok (Json.obj [("result", Json.obj [])])))).2 =
      Except.ok (Json.obj []) ∧
    (test_connection "http://s" "00:00:00"
        (.response 500 "b" (.ok (Json.obj [("result", Json.obj [])])))).2.1 =
      true :=
  (C10_status_ignored_amended "http://s" "00:00:00" 5 "chat" (Json.obj [])
    500 200 "b" (.ok (Json.obj [("result", Json.obj [])]))
    [("result", Json.obj [])] (Json.obj []) (Json.str "Unknown")
    rfl rfl rfl).2.2
